import Mathlib

/-!
Shallow embedding of the plan/order accounting engine of the food-portal
repository (src/UserPortal.js, src/Owner.js).  Dates/timestamps are modelled
as integers on an idealized timeline in which every day has a fixed length
of 86400000 milliseconds; Firestore documents become Lean structures with
`Option` fields for fields that may be absent, and the JS `??` defaults are
applied at the use sites exactly where the source applies them.
-/

namespace FoodPortal

/-- One day in milliseconds; `setDate(getDate() + 30)` on the idealized
fixed-length-day timeline adds `30 * dayMs`. -/
def dayMs : Int := 86400000

/-- Menu entry, from the hardcoded MENU list of UserPortal.js. -/
structure MenuItem where
  id : String
  name : String
  category : String
  price : Int
  calories : Int
deriving Repr, DecidableEq

/-- The hardcoded MENU of UserPortal.js (all 15 items). -/
def MENU : List MenuItem :=
  [ ⟨"mix-veg-sandwich", "Mix Veg Sandwich", "Sandwich", 65, 340⟩,
    ⟨"tofu-sandwich", "Tofu Sandwich", "Sandwich", 85, 380⟩,
    ⟨"paneer-sandwich", "Paneer Sandwich", "Sandwich", 95, 490⟩,
    ⟨"avocado-grill", "Avocado Grill Sandwich", "Sandwich", 95, 330⟩,
    ⟨"date-almond", "Date Almond Energizer", "Smoothie", 85, 380⟩,
    ⟨"melon-mint", "Melon Mint Cooler", "Smoothie", 75, 150⟩,
    ⟨"beet-berry", "Beet Berry Power", "Smoothie", 85, 230⟩,
    ⟨"berrylicious", "Berrylicious Glow", "Smoothie", 95, 210⟩,
    ⟨"tropical-oats", "Tropical Fruit & Honey Oats", "Oats Bowl", 85, 545⟩,
    ⟨"dark-choco-oats", "Dark Chocolate Oats", "Oats Bowl", 95, 575⟩,
    ⟨"coffee-oats", "Coffee Flavoured Oats", "Oats Bowl", 105, 555⟩,
    ⟨"peanut-cucumber", "Peanut Cucumber", "Salad", 95, 440⟩,
    ⟨"black-chana", "Black Chana Salad", "Salad", 75, 360⟩,
    ⟨"soya-chunk", "Soya Chunk Power Bowl", "Salad", 95, 400⟩,
    ⟨"avocado-tomato", "Avocado Tomato", "Salad", 115, 460⟩ ]

/-- PER_ITEM_MAX = 5 (UserPortal.js). -/
def PER_ITEM_MAX : Nat := 5

/-- PLAN_CAPACITY = 30 (UserPortal.js). -/
def PLAN_CAPACITY : Int := 30

/-- The `plan` map embedded in a user document.  Fields that may be absent
in the Firestore document are `Option`. -/
structure Plan where
  paid : Bool
  paymentSubmitted : Bool
  totalMeals : Option Int
  mealsRemaining : Option Int
  startDate : Option Int
  endDate : Option Int
  receiptBase64 : Option String
  receiptName : Option String
  paymentApprovedAt : Option Int
deriving Repr, DecidableEq

/-- A user document of the `users` collection (fields the accounting engine
touches). -/
structure User where
  id : String
  plan : Plan
  address : String
  paymentStatus : Option String
deriving Repr, DecidableEq

/-- One entry of an order's `items` array, as built by handleCheckout. -/
structure OrderItem where
  id : String
  name : String
  quantity : Nat
  price : Int
deriving Repr, DecidableEq

/-- An order document of the `Orders` collection. -/
structure Order where
  id : String
  userID : String
  items : List OrderItem
  totalQty : Nat
  totalPrice : Int
  status : String
  isExtraOrder : Bool
  date : Int
  approvedAt : Option Int
deriving Repr, DecidableEq

/-- Total item quantity of an order:
`(order.items || []).reduce((s, it) => s + (it.quantity || 0), 0)`. -/
def orderQty (o : Order) : Nat :=
  (o.items.map (fun it => it.quantity)).sum

/-- Cart: JS object mapping itemId to quantity.  Association list with
unique keys; `cartGet` models `p[itemId] || 0`. -/
def cartGet : List (String × Nat) → String → Nat
  | [], _ => 0
  | (k, v) :: rest, key => if k == key then v else cartGet rest key

/-- `{...p, [itemId]: q}`: replace the value at an existing key in place,
otherwise append the new key at the end. -/
def cartSet : List (String × Nat) → String → Nat → List (String × Nat)
  | [], key, v => [(key, v)]
  | (k, w) :: rest, key, v =>
    if k == key then (k, v) :: rest else (k, w) :: cartSet rest key v

/-- Client-side state of the UserPortal component: the loaded profile, the
user's orders snapshot, the cart, and the current time. -/
structure PortalState where
  profile : User
  orders : List Order
  cart : List (String × Nat)
  now : Int
deriving Repr, DecidableEq

/-- `planPaid = Boolean(profile?.plan?.paid)`. -/
def planPaid (s : PortalState) : Bool :=
  s.profile.plan.paid

/-- `userPlanOrders`: the user's non-extra orders whose date falls in the
current plan window; `[]` unless the plan is paid and both dates exist.
The order's `status` is not consulted. -/
def userPlanOrders (s : PortalState) : List Order :=
  match s.profile.plan.startDate, s.profile.plan.endDate, s.profile.plan.paid with
  | some ps, some pe, true =>
    s.orders.filter (fun o => !o.isExtraOrder && decide (ps ≤ o.date) && decide (o.date ≤ pe))
  | _, _, _ => []

/-- `planUsedCount`: total quantity over the plan orders. -/
def planUsedCount (s : PortalState) : Nat :=
  ((userPlanOrders s).map orderQty).sum

/-- `planRemaining = Math.max(0, PLAN_CAPACITY - planUsedCount)`. -/
def planRemaining (s : PortalState) : Int :=
  max 0 (PLAN_CAPACITY - (planUsedCount s : Int))

/-- `itemPlanCounts[itemId]`: across the plan orders, the number of `items`
entries carrying this item id (incremented once per entry). -/
def itemPlanCount (s : PortalState) (itemId : String) : Nat :=
  ((userPlanOrders s).map (fun o => (o.items.filter (fun it => it.id == itemId)).length)).sum

/-- `cartTotalQty = Object.values(cart).reduce((s, n) => s + n, 0)`. -/
def cartTotalQty (s : PortalState) : Nat :=
  (s.cart.map (fun p => p.2)).sum

/-- The three rejection alerts of addToCart. -/
inductive RejectReason where
  | planFull
  | itemMaxedForPlan
  | exceedsRemainingCapacity
deriving Repr, DecidableEq

/-- Result of addToCart: a rejection (cart untouched) or the new cart. -/
inductive AddResult where
  | rejected (reason : RejectReason)
  | added (cart : List (String × Nat))
deriving Repr, DecidableEq

/-- `addToCart(itemId)` from UserPortal.js: when the plan is paid it checks,
in order, `planRemaining <= 0`, `occ >= PER_ITEM_MAX`, and
`cartTotalQty + 1 > planRemaining`, returning on the first failure; on
success (or whenever the plan is unpaid) it stores `(p[itemId] || 0) + 1`. -/
def addToCart (s : PortalState) (itemId : String) : AddResult :=
  if s.profile.plan.paid then
    if planRemaining s ≤ 0 then .rejected .planFull
    else if PER_ITEM_MAX ≤ itemPlanCount s itemId then .rejected .itemMaxedForPlan
    else if planRemaining s < (cartTotalQty s : Int) + 1 then .rejected .exceedsRemainingCapacity
    else .added (cartSet s.cart itemId (cartGet s.cart itemId + 1))
  else .added (cartSet s.cart itemId (cartGet s.cart itemId + 1))

/-- `setCartQty(itemId, qty)`: stores `Math.max(0, Math.min(10, qty))`. -/
def setCartQty (cart : List (String × Nat)) (itemId : String) (qty : Int) :
    List (String × Nat) :=
  cartSet cart itemId (max 0 (min 10 qty)).toNat

/-- The item list handleCheckout builds from the cart:
`MENU.find(m => m.id === id) || { name: id, price: 0 }`. -/
def checkoutItems (cart : List (String × Nat)) : List OrderItem :=
  cart.map (fun p =>
    match MENU.find? (fun m => m.id == p.1) with
    | some meta => { id := p.1, name := meta.name, quantity := p.2, price := meta.price }
    | none => { id := p.1, name := p.1, quantity := p.2, price := 0 })

/-- `handleCheckout` from UserPortal.js: `none` models the early return on
an empty cart.  `totalPrice` is the plain sum of `quantity * price`;
`isExtraOrder` is `false` exactly when the plan is paid and
`totalQty <= planRemaining`.  `newId` stands for the Firestore-assigned
document id and `s.now` for `serverTimestamp()`. -/
def handleCheckout (s : PortalState) (newId : String) : Option Order :=
  let items := checkoutItems s.cart
  if items.length = 0 then none
  else
    let totalQty : Nat := (items.map (fun it => it.quantity)).sum
    let totalPrice : Int := (items.map (fun it => (it.quantity : Int) * it.price)).sum
    let isExtra : Bool :=
      if s.profile.plan.paid then decide (planRemaining s < (totalQty : Int)) else true
    some { id := newId, userID := s.profile.id, items := items, totalQty := totalQty,
           totalPrice := totalPrice, status := "pending", isExtraOrder := isExtra,
           date := s.now, approvedAt := none }

/-- Backend state: the `users` and `Orders` collections. -/
structure Store where
  users : List User
  orders : List Order
deriving Repr, DecidableEq

/-- `updateDoc(doc(db, "users", uid), ...)`: update the (unique) user
document with this id; association-list update of the first match. -/
def updateFirstUser : List User → String → (User → User) → List User
  | [], _, _ => []
  | u :: rest, uid, f =>
    if u.id == uid then f u :: rest else u :: updateFirstUser rest uid f

/-- `updateDoc(doc(db, "Orders", oid), ...)`: likewise for orders. -/
def updateFirstOrder : List Order → String → (Order → Order) → List Order
  | [], _, _ => []
  | o :: rest, oid, f =>
    if o.id == oid then f o :: rest else o :: updateFirstOrder rest oid f

/-- Look up the stored mealsRemaining of the user with this id. -/
def storeUserRem (st : Store) (uid : String) : Option Int :=
  (st.users.find? (fun u => u.id == uid)).bind (fun u => u.plan.mealsRemaining)

/-- Look up the status of the order with this id. -/
def storeOrderStatus (st : Store) (oid : String) : Option String :=
  (st.orders.find? (fun o => o.id == oid)).map (fun o => o.status)

/-- Result of UserPortal's ownerApproveOrder: the alert on a missing order,
or the updated store. -/
inductive ApproveOutcome where
  | notFound
  | ok (st : Store)
deriving Repr, DecidableEq

/-- Is the outcome a success? -/
def ApproveOutcome.isOk : ApproveOutcome → Bool
  | .notFound => false
  | .ok _ => true

/-- `ownerApproveOrder(orderId)` from UserPortal.js: alert if the order
document is missing; otherwise set `status: "approved"` unconditionally
(no check of the current status), and, when the order is not extra and the
user document exists, write
`plan.mealsRemaining = Math.max(0, (mealsRemaining ?? PLAN_CAPACITY) - qty)`. -/
def ownerApproveOrder (st : Store) (orderId : String) : ApproveOutcome :=
  match st.orders.find? (fun o => o.id == orderId) with
  | none => .notFound
  | some orderData =>
    let orders1 := updateFirstOrder st.orders orderId (fun o => { o with status := "approved" })
    if orderData.isExtraOrder then .ok { users := st.users, orders := orders1 }
    else
      match st.users.find? (fun u => u.id == orderData.userID) with
      | none => .ok { users := st.users, orders := orders1 }
      | some user =>
        let currRem : Int := user.plan.mealsRemaining.getD PLAN_CAPACITY
        let after : Int := max 0 (currRem - (orderQty orderData : Int))
        let users1 := updateFirstUser st.users orderData.userID
          (fun u => { u with plan := { u.plan with mealsRemaining := some after } })
        .ok { users := users1, orders := orders1 }

/-- `approveOrder(order)` from Owner.js: takes the order object, stamps
`status: "approved", approvedAt: serverTimestamp()`, and when
`!order.isExtraOrder && order.userID` (truthy, i.e. non-empty) and the user
document exists, writes
`plan.mealsRemaining = Math.max(0, Number(mealsRemaining ?? 30) - qty)`. -/
def approveOrder (st : Store) (o : Order) (now : Int) : Store :=
  let orders1 := updateFirstOrder st.orders o.id
    (fun x => { x with status := "approved", approvedAt := some now })
  if !o.isExtraOrder && o.userID != "" then
    match st.users.find? (fun u => u.id == o.userID) with
    | none => { users := st.users, orders := orders1 }
    | some userData =>
      let currRem : Int := userData.plan.mealsRemaining.getD 30
      let after : Int := max 0 (currRem - (orderQty o : Int))
      let users1 := updateFirstUser st.users o.userID
        (fun u => { u with plan := { u.plan with mealsRemaining := some after } })
      { users := users1, orders := orders1 }
  else { users := st.users, orders := orders1 }

/-- JS `x || null` on an optional string: the empty string is falsy. -/
def orNullStr : Option String → Option String
  | some s => if s = "" then none else some s
  | none => none

/-- The plan-field updates of Owner.js approvePayment: paid, fresh 30-day
window, full capacity, paymentSubmitted cleared, receipt rewritten through
`|| null`, approval timestamp. -/
def planAfterApprovePayment (p : Plan) (now : Int) : Plan :=
  { p with paid := true, paymentSubmitted := false,
           receiptBase64 := orNullStr p.receiptBase64,
           receiptName := orNullStr p.receiptName,
           startDate := some now, endDate := some (now + 30 * dayMs),
           totalMeals := some 30, mealsRemaining := some 30,
           paymentApprovedAt := some now }

/-- Owner.js `approvePayment(user)` at the store level: update the user's
document, also setting the top-level `paymentStatus: "approved"`. -/
def approvePayment (st : Store) (uid : String) (now : Int) : Store :=
  let users1 := updateFirstUser st.users uid
    (fun u => { u with plan := planAfterApprovePayment u.plan now,
                       paymentStatus := some "approved" })
  { st with users := users1 }

/-- The plan-field updates of UserPortal.js ownerApprovePlan. -/
def planAfterOwnerApprovePlan (p : Plan) (now : Int) : Plan :=
  { p with paid := true, paymentSubmitted := false,
           startDate := some now, endDate := some (now + 30 * dayMs),
           totalMeals := some PLAN_CAPACITY, mealsRemaining := some PLAN_CAPACITY }

/-- UserPortal.js `ownerApprovePlan(userDocId)` at the store level. -/
def ownerApprovePlan (st : Store) (uid : String) (now : Int) : Store :=
  let users1 := updateFirstUser st.users uid
    (fun u => { u with plan := planAfterOwnerApprovePlan u.plan now })
  { st with users := users1 }

/-- The plan-field updates of UserPortal.js handleRenewPlan:
`paymentSubmitted: true, paid: false, mealsRemaining: 0, startDate: null,
endDate: null`; no other field is written. -/
def planAfterRenew (p : Plan) : Plan :=
  { p with paymentSubmitted := true, paid := false, mealsRemaining := some 0,
           startDate := none, endDate := none }

/-- `handleRenewPlan` at the store level. -/
def handleRenewPlan (st : Store) (uid : String) : Store :=
  let users1 := updateFirstUser st.users uid
    (fun u => { u with plan := planAfterRenew u.plan })
  { st with users := users1 }

/-- The ledger-mutating operations of the claim set: payment approval,
order approval (with its decrement), renewal request. -/
inductive LedgerOp where
  | approvePaymentOp (uid : String) (now : Int)
  | approveOrderOp (orderId : String)
  | requestRenewalOp (uid : String)
deriving Repr, DecidableEq

/-- Apply one operation to the store (a missing order leaves it as is). -/
def applyOp (st : Store) (op : LedgerOp) : Store :=
  match op with
  | .approvePaymentOp uid now => approvePayment st uid now
  | .approveOrderOp orderId =>
    match ownerApproveOrder st orderId with
    | .notFound => st
    | .ok st1 => st1
  | .requestRenewalOp uid => handleRenewPlan st uid

/-- Apply a sequence of operations. -/
def applyOps (st : Store) (ops : List LedgerOp) : Store :=
  ops.foldl applyOp st

/-- The ledger invariant on one plan: both capacity fields are present and
`0 <= mealsRemaining <= totalMeals`. -/
def planInvHolds (p : Plan) : Bool :=
  match p.mealsRemaining, p.totalMeals with
  | some r, some t => decide (0 ≤ r) && decide (r ≤ t)
  | _, _ => false

/-- The invariant over every user of the store. -/
def storeInvHolds (st : Store) : Bool :=
  st.users.all (fun u => planInvHolds u.plan)

/-- The spec's notion of an active plan: `paid` and `endDate >= now`
(read-time classification, as in Owner.js's dashboard status label). -/
def planActiveSpec (p : Plan) (now : Int) : Bool :=
  p.paid && (match p.endDate with
             | some e => decide (now ≤ e)
             | none => false)

/-- An activated plan: paid, window `[0, 100]`, full capacity. -/
def planActive30 : Plan :=
  { paid := true, paymentSubmitted := false, totalMeals := some 30,
    mealsRemaining := some 30, startDate := some 0, endDate := some 100,
    receiptBase64 := none, receiptName := none, paymentApprovedAt := none }

/-- A never-activated plan (not paid, no window). -/
def planUnpaid : Plan :=
  { paid := false, paymentSubmitted := false, totalMeals := none,
    mealsRemaining := some 30, startDate := none, endDate := none,
    receiptBase64 := none, receiptName := none, paymentApprovedAt := none }

/-- A sample order of `q` Paneer Sandwiches. -/
def mkOrder (oid uid : String) (q : Nat) (d : Int) (extra : Bool) (stat : String) : Order :=
  { id := oid, userID := uid,
    items := [⟨"paneer-sandwich", "Paneer Sandwich", q, 95⟩],
    totalQty := q, totalPrice := 95 * (q : Int), status := stat,
    isExtraOrder := extra, date := d, approvedAt := none }

/-- Scenario-A state: inactive plan, 2 Paneer Sandwiches in the cart. -/
def sA : PortalState :=
  { profile := { id := "u1", plan := planUnpaid, address := "", paymentStatus := none },
    orders := [], cart := [("paneer-sandwich", 2)], now := 0 }

/-- A paid but expired plan: `endDate = 10`, observed at `now = 1000`. -/
def sExpired : PortalState :=
  { profile := { id := "u1", plan := { planActive30 with endDate := some 10 },
                 address := "", paymentStatus := none },
    orders := [], cart := [("paneer-sandwich", 1)], now := 1000 }

/-- Active plan whose 30 meals are fully consumed by one pending plan
order; the cart is empty. -/
def sPlanFull : PortalState :=
  { profile := { id := "u1", plan := planActive30, address := "", paymentStatus := none },
    orders := [mkOrder "o1" "u1" 30 10 false "pending"],
    cart := [], now := 50 }

/-- Scenario-B state: active plan with 3 meals left (27 consumed by a
pending plan order) and 3 units already in the cart. -/
def sB : PortalState :=
  { profile := { id := "u1", plan := planActive30, address := "", paymentStatus := none },
    orders := [mkOrder "o1" "u1" 27 10 false "pending"],
    cart := [("tofu-sandwich", 3)], now := 50 }

/-- Unpaid plan with a cart line already at 10 units. -/
def sLine10 : PortalState :=
  { profile := { id := "u1", plan := planUnpaid, address := "", paymentStatus := none },
    orders := [], cart := [("mix-veg-sandwich", 10)], now := 0 }

/-- Active plan with one pending plan order of 31 units in the window. -/
def sOver31 : PortalState :=
  { profile := { id := "u1", plan := planActive30, address := "", paymentStatus := none },
    orders := [mkOrder "o1" "u1" 31 10 false "pending"],
    cart := [], now := 50 }

/-- Backend store: one user with a fresh active plan, one pending
non-extra order of 5 meals. -/
def stApprove : Store :=
  { users := [{ id := "u1", plan := planActive30, address := "", paymentStatus := none }],
    orders := [mkOrder "o1" "u1" 5 10 false "pending"] }

/-- The order handleCheckout produces from the Scenario-A state `sA`. -/
def oA : Order :=
  { id := "o1", userID := "u1",
    items := [⟨"paneer-sandwich", "Paneer Sandwich", 2, 95⟩],
    totalQty := 2, totalPrice := 190, status := "pending",
    isExtraOrder := true, date := 0, approvedAt := none }

/-- The order handleCheckout produces from the expired-plan state
`sExpired`. -/
def oExp : Order :=
  { id := "o1", userID := "u1",
    items := [⟨"paneer-sandwich", "Paneer Sandwich", 1, 95⟩],
    totalQty := 1, totalPrice := 95, status := "pending",
    isExtraOrder := false, date := 1000, approvedAt := none }

/-- Overwrite only the stored `plan.mealsRemaining` of the loaded profile
(used to show the cart gate never reads it). -/
def setStoredRem (s : PortalState) (r : Option Int) : PortalState :=
  { s with profile := { s.profile with plan := { s.profile.plan with mealsRemaining := r } } }

/-- A non-extra order of 5 meals that is already approved. -/
def oApproved : Order := mkOrder "o1" "u1" 5 10 false "approved"

/-- Store in which `o1` has already been approved once and its 5 meals
already deducted (25 left). -/
def stApproved : Store :=
  { users := [{ id := "u1", plan := { planActive30 with mealsRemaining := some 25 },
                address := "", paymentStatus := none }],
    orders := [oApproved] }

/-- A demo operation sequence: activate the plan, approve the order,
request a renewal. -/
def opsDemo : List LedgerOp :=
  [.approvePaymentOp "u1" 0, .approveOrderOp "o1", .requestRenewalOp "u1"]

end FoodPortal

namespace FoodPortal

theorem cartGet_cartSet_self (c : List (String × Nat)) (k : String) (v : Nat) :
    cartGet (cartSet c k v) k = v := by
  induction c with
  | nil => simp [cartSet, cartGet]
  | cons hd tl ih =>
    by_cases hk : hd.1 == k
    · simp [cartSet, cartGet, hk]
    · simp [cartSet, cartGet, hk, ih]

/-- C7 counterexample: with an unpaid plan (no capacity guard) and a cart
line already at 10, `addToCart` succeeds and raises the line to 11,
violating the claimed per-line cap of 10. -/
theorem add_breaks_line_cap_at_ten :
    addToCart sLine10 "mix-veg-sandwich" = AddResult.added [("mix-veg-sandwich", 11)] ∧
    ¬ (11 ≤ 10) := by
  constructor
  · decide
  · decide

/-- C7 (amended): a successful `addToCart` increments the line's quantity
by exactly 1 with no per-line cap, and `setCartQty` always stores the
value clamped to `[0, 10]`. -/
theorem add_increments_and_setQty_clamps (s : PortalState) (itemId : String)
    (c2 : List (String × Nat)) (h : addToCart s itemId = AddResult.added c2)
    (c : List (String × Nat)) (k : String) (n : Int) :
    cartGet c2 itemId = cartGet s.cart itemId + 1 ∧
    cartGet (setCartQty c k n) k = (max 0 (min 10 n)).toNat ∧
    cartGet (setCartQty c k n) k ≤ 10 := by
  refine ⟨?_, ?_, ?_⟩
  · unfold addToCart at h
    split at h
    · split at h
      · exact absurd h (by simp)
      · split at h
        · exact absurd h (by simp)
        · split at h
          · exact absurd h (by simp)
          · simp only [AddResult.added.injEq] at h
            subst h
            exact cartGet_cartSet_self s.cart itemId (cartGet s.cart itemId + 1)
    · simp only [AddResult.added.injEq] at h
      subst h
      exact cartGet_cartSet_self s.cart itemId (cartGet s.cart itemId + 1)
  · unfold setCartQty
    exact cartGet_cartSet_self c k (max 0 (min 10 n)).toNat
  · unfold setCartQty
    rw [cartGet_cartSet_self]
    omega

/-- Witness for C7's amended theorem at the concrete state `sLine10`. -/
theorem add_increments_and_setQty_clamps_witness :
    cartGet [("mix-veg-sandwich", 11)] "mix-veg-sandwich"
      = cartGet sLine10.cart "mix-veg-sandwich" + 1 ∧
    cartGet (setCartQty [] "tofu-sandwich" 25) "tofu-sandwich" = (max 0 (min 10 (25 : Int))).toNat ∧
    cartGet (setCartQty [] "tofu-sandwich" 25) "tofu-sandwich" ≤ 10 :=
  add_increments_and_setQty_clamps sLine10 "mix-veg-sandwich"
    [("mix-veg-sandwich", 11)] (by decide) [] "tofu-sandwich" 25

/-- C8: approving a payment (both the Owner.js `approvePayment` and the
UserPortal `ownerApprovePlan` update) sets `paid = true`, resets
`mealsRemaining = totalMeals = 30`, sets `startDate` to the approval time
and `endDate` to exactly `startDate + 30` days, and clears
`paymentSubmitted`. -/
theorem approvePayment_resets_plan (p : Plan) (now : Int) :
    (planAfterApprovePayment p now).paid = true ∧
    (planAfterApprovePayment p now).mealsRemaining = some 30 ∧
    (planAfterApprovePayment p now).totalMeals = some 30 ∧
    (planAfterApprovePayment p now).startDate = some now ∧
    (planAfterApprovePayment p now).endDate = some (now + 30 * dayMs) ∧
    (planAfterApprovePayment p now).paymentSubmitted = false ∧
    (planAfterOwnerApprovePlan p now).paid = true ∧
    (planAfterOwnerApprovePlan p now).mealsRemaining = some 30 ∧
    (planAfterOwnerApprovePlan p now).totalMeals = some 30 ∧
    (planAfterOwnerApprovePlan p now).startDate = some now ∧
    (planAfterOwnerApprovePlan p now).endDate = some (now + 30 * dayMs) ∧
    (planAfterOwnerApprovePlan p now).paymentSubmitted = false :=
  ⟨rfl, rfl, rfl, rfl, rfl, rfl, rfl, rfl, rfl, rfl, rfl, rfl⟩

/-- C9: the renewal request sets `paymentSubmitted = true`, `paid = false`,
`mealsRemaining = 0`, clears both dates, and leaves every other plan field
unchanged. -/
theorem renew_sets_and_preserves (p : Plan) :
    (planAfterRenew p).paymentSubmitted = true ∧
    (planAfterRenew p).paid = false ∧
    (planAfterRenew p).mealsRemaining = some 0 ∧
    (planAfterRenew p).startDate = none ∧
    (planAfterRenew p).endDate = none ∧
    (planAfterRenew p).totalMeals = p.totalMeals ∧
    (planAfterRenew p).receiptBase64 = p.receiptBase64 ∧
    (planAfterRenew p).receiptName = p.receiptName ∧
    (planAfterRenew p).paymentApprovedAt = p.paymentApprovedAt :=
  ⟨rfl, rfl, rfl, rfl, rfl, rfl, rfl, rfl, rfl⟩

/-- C1 counterexample: at Scenario A (inactive plan, cart of 2 Paneer
Sandwich at 95), handleCheckout flags the order extra but stores
`totalPrice = 190 = 2 * 95`, with no 1.2 surcharge, not 228. -/
theorem checkout_no_surcharge_at_scenarioA :
    handleCheckout sA "o1" = some oA ∧ oA.totalPrice = 190 ∧
    oA.isExtraOrder = true ∧ (190 : Int) ≠ 228 := by
  refine ⟨by decide, rfl, rfl, by decide⟩

/-- C1 (amended): every order handleCheckout creates stores `totalPrice`
equal to the plain sum of `quantity * price` over its lines; no surcharge
factor is ever applied, extra order or not. -/
theorem checkout_totalPrice_is_plain_sum (s : PortalState) (newId : String) (o : Order)
    (h : handleCheckout s newId = some o) :
    o.totalPrice = (o.items.map (fun it => (it.quantity : Int) * it.price)).sum := by
  simp only [handleCheckout] at h
  split at h
  · exact absurd h (by simp)
  · simp only [Option.some.injEq] at h
    subst h
    rfl

/-- Witness for C1's amended theorem at the Scenario-A state. -/
theorem checkout_totalPrice_is_plain_sum_witness :
    oA.totalPrice = (oA.items.map (fun it => (it.quantity : Int) * it.price)).sum :=
  checkout_totalPrice_is_plain_sum sA "o1" oA (by decide)

/-- C4 counterexample: with a paid but expired plan (endDate 10, now 1000)
the plan is not active, yet handleCheckout produces `isExtraOrder = false`;
the code consults only the `paid` flag, never `endDate >= now`. -/
theorem extra_flag_ignores_expiry :
    planActiveSpec sExpired.profile.plan sExpired.now = false ∧
    handleCheckout sExpired "o1" = some oExp ∧ oExp.isExtraOrder = false := by
  refine ⟨by decide, by decide, rfl⟩

/-- C4 (amended): an order's `isExtraOrder` is true iff, at creation time,
the plan is not paid or the requested total quantity exceeds the computed
remaining capacity; the plan's `endDate` is not consulted. -/
theorem extra_flag_iff_unpaid_or_over (s : PortalState) (newId : String) (o : Order)
    (h : handleCheckout s newId = some o) :
    (o.isExtraOrder = true ↔
      (s.profile.plan.paid = false ∨ planRemaining s < (o.totalQty : Int))) := by
  simp only [handleCheckout] at h
  split at h
  · exact absurd h (by simp)
  · simp only [Option.some.injEq] at h
    subst h
    by_cases hp : s.profile.plan.paid
    · simp [hp]
    · simp [hp]

/-- Witness for C4's amended theorem at the expired-plan state. -/
theorem extra_flag_iff_unpaid_or_over_witness :
    (oExp.isExtraOrder = true ↔
      (sExpired.profile.plan.paid = false ∨ planRemaining sExpired < (oExp.totalQty : Int))) :=
  extra_flag_iff_unpaid_or_over sExpired "o1" oExp (by decide)

/-- C6 counterexample: with an active plan whose capacity is exhausted
(remaining 0) and an empty cart, adding one unit would push the cart total
above the remaining capacity, yet the rejection reason is PlanFull, not
ExceedsRemainingCapacity. -/
theorem capacity_reject_reason_not_always_exceeds :
    addToCart sPlanFull "mix-veg-sandwich" = AddResult.rejected RejectReason.planFull ∧
    planRemaining sPlanFull < (cartTotalQty sPlanFull : Int) + 1 ∧
    RejectReason.planFull ≠ RejectReason.exceedsRemainingCapacity := by
  refine ⟨by decide, by decide, by decide⟩

/-- C6 (amended): while the plan is paid, `addToCart` never succeeds when
it would push the total cart quantity above the remaining capacity; the
rejection reason is ExceedsRemainingCapacity when the remaining capacity
is positive and the item's per-plan count is below the cap (otherwise
PlanFull or ItemMaxedForPlan takes priority); a rejection leaves the cart
unchanged. -/
theorem add_never_exceeds_capacity (s : PortalState) (itemId : String)
    (hpaid : s.profile.plan.paid = true) :
    (∀ c2, addToCart s itemId = AddResult.added c2 →
       (cartTotalQty s : Int) + 1 ≤ planRemaining s) ∧
    (0 < planRemaining s → itemPlanCount s itemId < PER_ITEM_MAX →
       planRemaining s < (cartTotalQty s : Int) + 1 →
       addToCart s itemId = AddResult.rejected RejectReason.exceedsRemainingCapacity) := by
  constructor
  · intro c2 h
    simp only [addToCart, hpaid, if_true] at h
    split at h
    · exact absurd h (by simp)
    · split at h
      · exact absurd h (by simp)
      · split at h
        · exact absurd h (by simp)
        · rename_i h1 h2 h3
          omega
  · intro hpos hocc hover
    simp only [addToCart, hpaid, if_true]
    split
    · rename_i hc
      exact absurd hc (by omega)
    · split
      · rename_i hc
        exact absurd hc (by omega)
      · simp only [if_pos hover]

/-- Witness for C6's amended theorem at the Scenario-B state (remaining 3,
cart already holding 3 units). -/
theorem add_never_exceeds_capacity_witness :
    (∀ c2, addToCart sB "tofu-sandwich" = AddResult.added c2 →
       (cartTotalQty sB : Int) + 1 ≤ planRemaining sB) ∧
    (0 < planRemaining sB → itemPlanCount sB "tofu-sandwich" < PER_ITEM_MAX →
       planRemaining sB < (cartTotalQty sB : Int) + 1 →
       addToCart sB "tofu-sandwich" = AddResult.rejected RejectReason.exceedsRemainingCapacity) :=
  add_never_exceeds_capacity sB "tofu-sandwich" rfl

/-- C10 counterexample: one pending non-extra order of 31 units in the
window makes `planRemaining` 0, not `30 - 31 = -1`: the recomputation is
clamped at zero. -/
theorem planRemaining_clamp_counterexample :
    planRemaining sOver31 = 0 ∧
    PLAN_CAPACITY - (planUsedCount sOver31 : Int) = -1 ∧
    planRemaining sOver31 ≠ PLAN_CAPACITY - (planUsedCount sOver31 : Int) := by
  refine ⟨by decide, by decide, by decide⟩

/-- C10 (amended): for a paid plan with both dates present, the value
gating cart additions is recomputed as `max 0 (30 - sum)` over the item
quantities of all non-extra orders dated inside the plan window (status
not consulted, so pending orders count), and it never reads the stored
`plan.mealsRemaining`. -/
theorem planRemaining_recomputed (s : PortalState) (a b : Int)
    (hp : s.profile.plan.paid = true)
    (ha : s.profile.plan.startDate = some a)
    (hb : s.profile.plan.endDate = some b) (r : Option Int) :
    planRemaining s =
      max 0 (PLAN_CAPACITY -
        (((s.orders.filter
            (fun o => !o.isExtraOrder && decide (a ≤ o.date) && decide (o.date ≤ b))).map
            orderQty).sum : Int)) ∧
    planRemaining (setStoredRem s r) = planRemaining s := by
  constructor
  · simp only [planRemaining, planUsedCount, userPlanOrders, ha, hb, hp]
  · rfl

/-- Witness for C10's amended theorem at the Scenario-B state, whose
pending plan order already lowers the gate to 3. -/
theorem planRemaining_recomputed_witness :
    planRemaining sB =
      max 0 (PLAN_CAPACITY -
        (((sB.orders.filter
            (fun o => !o.isExtraOrder && decide ((0 : Int) ≤ o.date) && decide (o.date ≤ (100 : Int)))).map
            orderQty).sum : Int)) ∧
    planRemaining (setStoredRem sB (some 7)) = planRemaining sB :=
  planRemaining_recomputed sB 0 100 rfl rfl rfl (some 7)

theorem find?_updateFirstUser (users : List User) (uid : String) (f : User → User) (u0 : User)
    (hfind : users.find? (fun u => u.id == uid) = some u0)
    (hid : (f u0).id = u0.id) :
    (updateFirstUser users uid f).find? (fun u => u.id == uid) = some (f u0) := by
  induction users with
  | nil => simp [List.find?] at hfind
  | cons hd tl ih =>
    by_cases hk : (hd.id == uid) = true
    · have h1 : List.find? (fun u => u.id == uid) (hd :: tl) = some hd := by
        simp [List.find?_cons, hk]
      rw [h1] at hfind
      cases hfind
      rw [updateFirstUser, if_pos hk]
      simp [List.find?_cons, hid, hk]
    · have hk2 : (hd.id == uid) = false := by
        simpa using hk
      rw [updateFirstUser, if_neg hk]
      rw [List.find?_cons_of_neg _ (by simp [hk2])] at hfind
      rw [List.find?_cons_of_neg _ (by simp [hk2])]
      exact ih hfind

theorem find?_updateFirstOrder (orders : List Order) (oid : String) (f : Order → Order) (o0 : Order)
    (hfind : orders.find? (fun o => o.id == oid) = some o0)
    (hid : (f o0).id = o0.id) :
    (updateFirstOrder orders oid f).find? (fun o => o.id == oid) = some (f o0) := by
  induction orders with
  | nil => simp [List.find?] at hfind
  | cons hd tl ih =>
    by_cases hk : (hd.id == oid) = true
    · have h1 : List.find? (fun o => o.id == oid) (hd :: tl) = some hd := by
        simp [List.find?_cons, hk]
      rw [h1] at hfind
      cases hfind
      rw [updateFirstOrder, if_pos hk]
      simp [List.find?_cons, hid, hk]
    · have hk2 : (hd.id == oid) = false := by
        simpa using hk
      rw [updateFirstOrder, if_neg hk]
      rw [List.find?_cons_of_neg _ (by simp [hk2])] at hfind
      rw [List.find?_cons_of_neg _ (by simp [hk2])]
      exact ih hfind

theorem storeUserRem_mk (us : List User) (os : List Order) (uid : String) :
    storeUserRem { users := us, orders := os } uid
      = (us.find? (fun u => u.id == uid)).bind (fun u => u.plan.mealsRemaining) := rfl

theorem storeOrderStatus_mk (us : List User) (os : List Order) (oid : String) :
    storeOrderStatus { users := us, orders := os } oid
      = (os.find? (fun o => o.id == oid)).map (fun o => o.status) := rfl

theorem approveOrder_eq (st : Store) (o : Order) (now : Int) (u : User)
    (hx : o.isExtraOrder = false) (hy : o.userID ≠ "")
    (hu : st.users.find? (fun v => v.id == o.userID) = some u) :
    approveOrder st o now =
      { users := updateFirstUser st.users o.userID (fun v => { v with plan := { v.plan with mealsRemaining := some (max 0 (u.plan.mealsRemaining.getD 30 - (orderQty o : Int))) } }),
        orders := updateFirstOrder st.orders o.id (fun x => { x with status := "approved", approvedAt := some now }) } := by
  have hguard : (!o.isExtraOrder && o.userID != "") = true := by
    simp [hx, hy]
  simp only [approveOrder]
  rw [if_pos hguard, hu]

theorem ownerApproveOrder_eq (st : Store) (oid : String) (o : Order) (u : User)
    (ho : st.orders.find? (fun x => x.id == oid) = some o)
    (hx : o.isExtraOrder = false)
    (hu : st.users.find? (fun v => v.id == o.userID) = some u) :
    ownerApproveOrder st oid = ApproveOutcome.ok
      { users := updateFirstUser st.users o.userID (fun v => { v with plan := { v.plan with mealsRemaining := some (max 0 (u.plan.mealsRemaining.getD PLAN_CAPACITY - (orderQty o : Int))) } }),
        orders := updateFirstOrder st.orders oid (fun x => { x with status := "approved" }) } := by
  simp only [ownerApproveOrder, ho]
  rw [if_neg (by simp [hx]), hu]

/-- C5: the ledger decrement Owner.js applies when approving a non-extra
order with a truthy userID takes a plan with remaining `r` to exactly
`max 0 (r - q)`, where `q` is the order's total quantity; the result is
never negative. -/
theorem approveOrder_decrement_clamped (st : Store) (o : Order) (now : Int) (u : User) (r : Int)
    (hx : o.isExtraOrder = false) (hy : o.userID ≠ "")
    (hu : st.users.find? (fun v => v.id == o.userID) = some u)
    (hr : u.plan.mealsRemaining = some r) :
    storeUserRem (approveOrder st o now) o.userID = some (max 0 (r - (orderQty o : Int))) ∧
    0 ≤ max 0 (r - (orderQty o : Int)) := by
  constructor
  · rw [approveOrder_eq st o now u hx hy hu, storeUserRem_mk]
    rw [find?_updateFirstUser _ _ _ u hu rfl]
    simp [hr]
  · exact le_max_left 0 _

/-- Witness for C5 at the concrete store `stApprove` (remaining 30, order
of 5 meals). -/
theorem approveOrder_decrement_clamped_witness :
    storeUserRem (approveOrder stApprove (mkOrder "o1" "u1" 5 10 false "pending") 60) "u1"
      = some (max 0 (30 - (orderQty (mkOrder "o1" "u1" 5 10 false "pending") : Int))) ∧
    0 ≤ max 0 (30 - (orderQty (mkOrder "o1" "u1" 5 10 false "pending") : Int)) :=
  approveOrder_decrement_clamped stApprove (mkOrder "o1" "u1" 5 10 false "pending") 60
    ⟨"u1", planActive30, "", none⟩ 30 rfl (by decide) (by decide) rfl

/-- C2 counterexample: in `stApprove` (plan with 30 meals, pending 5-meal
order), the first approval leaves 25 meals and marks the order approved;
a second call to ownerApproveOrder still succeeds and leaves 20 meals,
not 25 — the decrement is applied once per invocation, not once per
order. -/
theorem double_approval_decrements_twice :
    storeUserRem (applyOps stApprove [.approveOrderOp "o1"]) "u1" = some 25 ∧
    storeOrderStatus (applyOps stApprove [.approveOrderOp "o1"]) "o1" = some "approved" ∧
    (ownerApproveOrder (applyOps stApprove [.approveOrderOp "o1"]) "o1").isOk = true ∧
    storeUserRem (applyOps stApprove [.approveOrderOp "o1", .approveOrderOp "o1"]) "u1"
      = some 20 ∧
    (20 : Int) ≠ 25 := by
  refine ⟨by decide, by decide, by decide, by decide, by decide⟩

/-- C2 (amended): ownerApproveOrder checks only that the order document
exists, never its status: even for an order whose status is already
"approved" it succeeds, re-stamps the status, and — for a non-extra order
whose user exists — decrements the stored mealsRemaining by the order
quantity (clamped at 0) again; the decrement happens once per invocation,
not once per order. -/
theorem approve_ignores_status_and_decrements (st : Store) (oid : String) (o : Order)
    (u : User) (r : Int)
    (ho : st.orders.find? (fun x => x.id == oid) = some o)
    (_hstat : o.status = "approved")
    (hx : o.isExtraOrder = false)
    (hu : st.users.find? (fun v => v.id == o.userID) = some u)
    (hr : u.plan.mealsRemaining = some r) :
    ∃ st2, ownerApproveOrder st oid = ApproveOutcome.ok st2 ∧
      storeUserRem st2 o.userID = some (max 0 (r - (orderQty o : Int))) ∧
      storeOrderStatus st2 oid = some "approved" := by
  refine ⟨_, ownerApproveOrder_eq st oid o u ho hx hu, ?_, ?_⟩
  · rw [storeUserRem_mk]
    rw [find?_updateFirstUser _ _ _ u hu rfl]
    simp [hr]
  · rw [storeOrderStatus_mk]
    rw [find?_updateFirstOrder _ _ _ o ho rfl]
    rfl

/-- Witness for C2's amended theorem at the already-approved store
`stApproved`. -/
theorem approve_ignores_status_witness :
    ∃ st2, ownerApproveOrder stApproved "o1" = ApproveOutcome.ok st2 ∧
      storeUserRem st2 oApproved.userID = some (max 0 (25 - (orderQty oApproved : Int))) ∧
      storeOrderStatus st2 "o1" = some "approved" :=
  approve_ignores_status_and_decrements stApproved "o1" oApproved
    ⟨"u1", { planActive30 with mealsRemaining := some 25 }, "", none⟩ 25
    (by decide) rfl rfl (by decide) rfl

theorem all_updateFirstUser_mono (P : User → Bool) (users : List User) (uid : String)
    (f : User → User) (h : users.all P = true)
    (hf : ∀ u, P u = true → P (f u) = true) :
    (updateFirstUser users uid f).all P = true := by
  induction users with
  | nil => exact h
  | cons hd tl ih =>
    rw [List.all_cons, Bool.and_eq_true] at h
    by_cases hk : (hd.id == uid) = true
    · rw [updateFirstUser, if_pos hk, List.all_cons, Bool.and_eq_true]
      exact ⟨hf hd h.1, h.2⟩
    · rw [updateFirstUser, if_neg hk, List.all_cons, Bool.and_eq_true]
      exact ⟨h.1, ih h.2⟩

theorem all_updateFirstUser_of_find (P : User → Bool) (users : List User) (uid : String)
    (f : User → User) (u0 : User)
    (hfind : users.find? (fun u => u.id == uid) = some u0)
    (h : users.all P = true) (hf : P u0 = true → P (f u0) = true) :
    (updateFirstUser users uid f).all P = true := by
  induction users with
  | nil => simp [List.find?] at hfind
  | cons hd tl ih =>
    rw [List.all_cons, Bool.and_eq_true] at h
    by_cases hk : (hd.id == uid) = true
    · have h1 : List.find? (fun u => u.id == uid) (hd :: tl) = some hd := by
        simp [List.find?_cons, hk]
      rw [h1] at hfind
      cases hfind
      rw [updateFirstUser, if_pos hk, List.all_cons, Bool.and_eq_true]
      exact ⟨hf h.1, h.2⟩
    · have hk2 : (hd.id == uid) = false := by
        simpa using hk
      rw [List.find?_cons_of_neg _ (by simp [hk2])] at hfind
      rw [updateFirstUser, if_neg hk, List.all_cons, Bool.and_eq_true]
      exact ⟨h.1, ih hfind h.2⟩

theorem planInv_approvePayment (p : Plan) (now : Int) :
    planInvHolds (planAfterApprovePayment p now) = true := rfl

theorem planInv_ownerApprovePlan (p : Plan) (now : Int) :
    planInvHolds (planAfterOwnerApprovePlan p now) = true := rfl

theorem planInv_renew (p : Plan) (h : planInvHolds p = true) :
    planInvHolds (planAfterRenew p) = true := by
  unfold planInvHolds at h ⊢
  cases hm : p.mealsRemaining with
  | none => rw [hm] at h; cases h
  | some r =>
    cases ht : p.totalMeals with
    | none => rw [hm, ht] at h; cases h
    | some t =>
      rw [hm, ht] at h
      have hrt : 0 ≤ r ∧ r ≤ t := by
        simpa using h
      show (match (planAfterRenew p).mealsRemaining, (planAfterRenew p).totalMeals with
            | some r, some t => decide (0 ≤ r) && decide (r ≤ t)
            | _, _ => false) = true
      have h2 : (planAfterRenew p).totalMeals = some t := by
        simpa [planAfterRenew] using ht
      rw [show (planAfterRenew p).mealsRemaining = some 0 from rfl, h2]
      simp
      omega

theorem planInv_dec (p : Plan) (q : Int) (hq : 0 ≤ q) (h : planInvHolds p = true) :
    planInvHolds { p with mealsRemaining := some (max 0 (p.mealsRemaining.getD PLAN_CAPACITY - q)) } = true := by
  unfold planInvHolds at h ⊢
  cases hm : p.mealsRemaining with
  | none => rw [hm] at h; cases h
  | some r =>
    cases ht : p.totalMeals with
    | none => rw [hm, ht] at h; cases h
    | some t =>
      rw [hm, ht] at h
      have hrt : 0 ≤ r ∧ r ≤ t := by
        simpa using h
      have hgoal : (0 : Int) ≤ max 0 (r - q) ∧ max 0 (r - q) ≤ t := by
        constructor
        · exact le_max_left 0 _
        · omega
      simp [hm, ht, Option.getD_some, hgoal.1, hgoal.2]

theorem storeInv_applyOp (st : Store) (op : LedgerOp) (h : storeInvHolds st = true) :
    storeInvHolds (applyOp st op) = true := by
  cases op with
  | approvePaymentOp uid now =>
    exact all_updateFirstUser_mono _ st.users uid _ h
      (fun u _ => planInv_approvePayment u.plan now)
  | requestRenewalOp uid =>
    exact all_updateFirstUser_mono _ st.users uid _ h
      (fun u hu => planInv_renew u.plan hu)
  | approveOrderOp oid =>
    show storeInvHolds (match ownerApproveOrder st oid with
                        | .notFound => st
                        | .ok st1 => st1) = true
    cases hfo : st.orders.find? (fun x => x.id == oid) with
    | none =>
      simp only [ownerApproveOrder, hfo]
      exact h
    | some orderData =>
      simp only [ownerApproveOrder, hfo]
      by_cases hx : orderData.isExtraOrder = true
      · rw [if_pos hx]
        exact h
      · rw [if_neg hx]
        cases hfu : st.users.find? (fun v => v.id == orderData.userID) with
        | none =>
          exact h
        | some u0 =>
          exact all_updateFirstUser_of_find _ st.users orderData.userID _ u0 hfu h
            (planInv_dec u0.plan (orderQty orderData : Int) (by omega))

/-- C3: starting from any store in which every plan satisfies
`0 <= mealsRemaining <= totalMeals`, every sequence of payment approvals,
order approvals (with their ledger decrement) and renewal requests keeps
the invariant after each operation. -/
theorem ledger_invariant_preserved (st : Store) (h : storeInvHolds st = true)
    (ops : List LedgerOp) :
    storeInvHolds (applyOps st ops) = true := by
  induction ops generalizing st with
  | nil => exact h
  | cons op rest ih => exact ih (applyOp st op) (storeInv_applyOp st op h)

/-- Witness for C3 on the concrete store `stApprove` and the demo
operation sequence. -/
theorem ledger_invariant_preserved_witness :
    storeInvHolds stApprove = true ∧ storeInvHolds (applyOps stApprove opsDemo) = true :=
  ⟨by decide, ledger_invariant_preserved stApprove (by decide) opsDemo⟩

end FoodPortal
